import Mathlib

/-!
# 4seasons — verification of the UI layer against its specification

Shallow embedding of the React/TypeScript UI layer of the 4seasons
seasonality application: the payload types from `src/types.ts`
(`SeasonalityData`, `COTData`, `ChartDataPoint`), the chart-data transform
and state handlers of `useSeasonality` / `useCOT`
(`src/hooks/useSeasonality.ts`), the tooltip formatter of
`SeasonalityChart.tsx` / `HistoricalChart.tsx`, the period buttons of
`COTChart.tsx`, and the year input of `Sidebar.tsx`.

JavaScript numbers are modelled as `ℚ`; a `number | null` entry is
`Option ℚ`; an optional array field is `Option (List (Option ℚ))`.
An awaited `invoke` either resolves to a payload or throws; both outcomes
are inputs to the handler functions, which return the final React state
together with the list of backend commands issued during the call.
-/

namespace FourSeasons

/-- Outcome of an awaited `invoke` call: it resolves with a payload or
throws with an error value (stringified by the catch block). -/
inductive Outcome (α : Type) where
  | ok (val : α)
  | thrown (msg : String)
deriving Repr, DecidableEq

/-- `SeasonalityData` from `src/types.ts`: the payload of `fetch_data` and
`calculate_seasonality`.  All fields but `success` are optional. -/
structure SeasonalityData where
  success : Bool
  message : Option String := none
  rows_added : Option Nat := none
  last_date : Option String := none
  avg_2yr : Option (List (Option ℚ)) := none
  avg_5yr : Option (List (Option ℚ)) := none
  avg_6yr : Option (List (Option ℚ)) := none
  avg_10yr : Option (List (Option ℚ)) := none
  actual : Option (List (Option ℚ)) := none
  target_year : Option Int := none
deriving Repr, DecidableEq

/-- `COTData` from `src/types.ts`: the payload of `fetch_cot_data` and
`calculate_cot_metrics`. -/
structure COTData where
  success : Bool
  message : Option String := none
  rows_added : Option Nat := none
  last_date : Option String := none
  dates : Option (List String) := none
  open_interest : Option (List (Option ℚ)) := none
  noncomm_net : Option (List (Option ℚ)) := none
  comm_net : Option (List (Option ℚ)) := none
  noncomm_long : Option (List (Option ℚ)) := none
  noncomm_short : Option (List (Option ℚ)) := none
  comm_long : Option (List (Option ℚ)) := none
  comm_short : Option (List (Option ℚ)) := none
  noncomm_net_change : Option (List (Option ℚ)) := none
  comm_net_change : Option (List (Option ℚ)) := none
  oi_change : Option (List (Option ℚ)) := none
deriving Repr, DecidableEq

/-- JavaScript `x || null` applied to a `number | null | undefined` value:
`0` is falsy, so a numeric `0` is coalesced to `null`, as are `null` and
`undefined` themselves. -/
def orNull (x : Option ℚ) : Option ℚ :=
  match x with
  | some v => if v = 0 then none else some v
  | none => none

/-- JavaScript `s || d` applied to `string | undefined` (e.g.
`result.message || "Failed to calculate seasonality"`): the empty string is
falsy. -/
def orString (x : Option String) (d : String) : String :=
  match x with
  | some m => if m = "" then d else m
  | none => d

/-- JavaScript `arr?.[day]` on an optional array of `number | null`
entries, collapsed with the subsequent `|| null`-compatible reading:
`none` when the array field is absent, when `day` is out of range, or when
the stored entry is `null`. -/
def optIndex (arr : Option (List (Option ℚ))) (day : Nat) : Option ℚ :=
  match arr with
  | none => none
  | some l => (l.get? day).join

/-- The month-name array of `handleCalculate` in
`src/hooks/useSeasonality.ts`. -/
def months : List String :=
  ["Jan", "Feb", "Mar", "Apr", "May", "Jun",
   "Jul", "Aug", "Sep", "Oct", "Nov", "Dec"]

/-- `Math.floor(day / 30.4)` from `handleCalculate` (30.4 = 152/5). -/
def monthIndex (day : Nat) : Nat :=
  Nat.floor ((day : ℚ) / (152 / 5))

/-- `months[Math.min(monthIndex, 11)]`: an out-of-range JavaScript index
would yield `undefined`, modelled by `List.get?`. -/
def monthLabel (day : Nat) : Option String :=
  months.get? (min (monthIndex day) 11)

/-- `ChartDataPoint` from `src/types.ts`, as built by the transform loop of
`handleCalculate`.  The dynamic key named after the selected year holds the
curve of the target year itself; here it is the fixed field `actualVal`
(its key string is `yearKey selectedYear`, see below). -/
structure ChartDataPoint where
  day : Nat
  month : Option String
  avg10 : Option ℚ
  avg6 : Option ℚ
  avg5 : Option ℚ
  avg2 : Option ℚ
  actualVal : Option ℚ
deriving Repr, DecidableEq

/-- One iteration of the transform loop of `handleCalculate`
(`src/hooks/useSeasonality.ts`, lines 73-86): builds the chart point for
loop index `day` (0-based; the chart `day` field is `day + 1`). -/
def transformPoint (result : SeasonalityData) (day : Nat) : ChartDataPoint :=
  { day := day + 1
    month := monthLabel day
    avg10 := orNull (optIndex result.avg_10yr day)
    avg6 := orNull (optIndex result.avg_6yr day)
    avg5 := orNull (optIndex result.avg_5yr day)
    avg2 := orNull (optIndex result.avg_2yr day)
    actualVal := orNull (optIndex result.actual day) }

/-- The whole transform loop: `for (let day = 0; day < 365; day++)`. -/
def transformChartData (result : SeasonalityData) : List ChartDataPoint :=
  (List.range 365).map (transformPoint result)

/-- The string key, built from the selected year by a template literal,
under which the curve of the target year is stored; the year is `none`
when `parseInt` produced `NaN`. -/
def yearKey (selectedYear : Option Int) : String :=
  match selectedYear with
  | some y => toString y
  | none => "NaN"

/-- The five data keys a transformed chart point carries, in the order the
transform writes them. -/
def chartSeriesKeys (selectedYear : Option Int) : List String :=
  ["10-Year Avg", "6-Year Avg", "5-Year Avg", "2-Year Avg",
   yearKey selectedYear]

/-- The `dataKey`s of the `Line` components rendered by
`HistoricalChart.tsx` under the four visibility toggles. -/
def historicalChartLines (s10 s6 s5 s2 : Bool) : List String :=
  (if s10 then ["10-Year Avg"] else []) ++
  (if s6 then ["6-Year Avg"] else []) ++
  (if s5 then ["5-Year Avg"] else []) ++
  (if s2 then ["2-Year Avg"] else [])

/-- Initial values of the four visibility toggles in `useSeasonality`
(`useState(true)` for each of show10yr, show6yr, show5yr, show2yr). -/
def initShowFlags : Bool × Bool × Bool × Bool := (true, true, true, true)

/-- The backend commands an event handler can issue through `invoke`,
with the arguments it passes. -/
inductive Cmd where
  | fetchData (symbol filePath : String)
  | calcSeasonality (filePath : String) (year : Option Int)
  | fetchCotData (symbol filePath : String)
  | calcCotMetrics (filePath : String) (years : Nat)
deriving Repr, DecidableEq

/-- The daily-prices CSV path built by `useSeasonality`: the app data
directory, "/data/", the asset id and the suffix "_daily.csv". -/
def filePathFor (appDataDir assetId : String) : String :=
  appDataDir ++ "/data/" ++ assetId ++ "_daily.csv"

/-- The COT CSV path built by `useCOT`: the app data directory, "/data/",
the asset id and the suffix "_cot.csv". -/
def cotFilePathFor (appDataDir assetId : String) : String :=
  appDataDir ++ "/data/" ++ assetId ++ "_cot.csv"

/-- The React state owned by `useSeasonality` that `handleCalculate`
reads or writes.  The y-axis domain is `none` for the auto setting. -/
structure SeasonState where
  loading : Bool
  error : Option String
  chartData : List ChartDataPoint
  dataStatus : String
  yAxisDomain : Option (ℚ × ℚ)
deriving Repr, DecidableEq

/-- Initial `useSeasonality` state (the `useState` initializers). -/
def initSeasonState : SeasonState :=
  { loading := false
    error := none
    chartData := []
    dataStatus := "Not loaded"
    yAxisDomain := none }

/-- `handleCalculate` from `src/hooks/useSeasonality.ts` (lines 51-102) as
a state transformer.  `calcRes` is the outcome of the awaited
`invoke("calculate_seasonality", ...)`; it is only consumed (and the
command only issued) when control reaches the `invoke`.  Returns the final
state together with the commands issued during the call. -/
def handleCalculate (appDataDir assetId : String) (selectedYear : Option Int)
    (calcRes : Outcome SeasonalityData) (s : SeasonState) :
    SeasonState × List Cmd :=
  if appDataDir = "" then
    ({ s with error := some "App not initialized" }, [])
  else
    let s1 := { s with loading := true, error := none,
                       dataStatus := "Calculating seasonality..." }
    let fp := filePathFor appDataDir assetId
    match calcRes with
    | .thrown msg =>
        ({ s1 with error := some ("Error: " ++ msg),
                   dataStatus := "Error calculating",
                   loading := false },
         [.calcSeasonality fp selectedYear])
    | .ok result =>
        if result.success then
          ({ s1 with chartData := transformChartData result,
                     yAxisDomain := none,
                     dataStatus := "✓ Data calculated for " ++ yearKey selectedYear,
                     loading := false },
           [.calcSeasonality fp selectedYear])
        else
          ({ s1 with error := some (orString result.message
                        "Failed to calculate seasonality"),
                     dataStatus := "Error calculating",
                     loading := false },
           [.calcSeasonality fp selectedYear])

/-- The React state owned by `useCOT`. -/
structure COTState where
  cotData : Option COTData
  cotLoading : Bool
  cotPeriod : Nat
  cotError : Option String
deriving Repr, DecidableEq

/-- Initial `useCOT` state: `cotData = null`, `cotLoading = false`,
`cotPeriod = 1`, `cotError = null`. -/
def initCOTState : COTState :=
  { cotData := none, cotLoading := false, cotPeriod := 1, cotError := none }

/-- `handleFetchCOT` from `src/hooks/useSeasonality.ts` (lines 173-210).
`fetchRes` is the outcome of the awaited `invoke("fetch_cot_data", ...)`;
`calcRes` that of `invoke("calculate_cot_metrics", ...)`, consumed only if
control reaches the second `invoke`.  A throw in either awaited call lands
in the shared catch block, which sets the error and clears `cotData`. -/
def handleFetchCOT (appDataDir assetId symbol : String)
    (fetchRes calcRes : Outcome COTData) (s : COTState) :
    COTState × List Cmd :=
  let s1 := { s with cotLoading := true, cotError := none }
  let fp := cotFilePathFor appDataDir assetId
  match fetchRes with
  | .thrown msg =>
      ({ s1 with cotError := some ("Error: " ++ msg),
                 cotData := none, cotLoading := false },
       [.fetchCotData symbol fp])
  | .ok fr =>
      if fr.success then
        match calcRes with
        | .thrown msg =>
            ({ s1 with cotError := some ("Error: " ++ msg),
                       cotData := none, cotLoading := false },
             [.fetchCotData symbol fp, .calcCotMetrics fp s.cotPeriod])
        | .ok cr =>
            if cr.success then
              ({ s1 with cotData := some cr, cotLoading := false },
               [.fetchCotData symbol fp, .calcCotMetrics fp s.cotPeriod])
            else
              ({ s1 with cotError := some (orString cr.message
                            "Failed to calculate COT metrics"),
                         cotData := none, cotLoading := false },
               [.fetchCotData symbol fp, .calcCotMetrics fp s.cotPeriod])
      else
        ({ s1 with cotError := some (orString fr.message
                      "Failed to fetch COT data"),
                   cotData := none, cotLoading := false },
         [.fetchCotData symbol fp])

/-- `handleCOTPeriodChange` from `src/hooks/useSeasonality.ts` (lines
212-236): sets the period first, early-returns when no COT data is loaded,
otherwise recomputes; on a failed or thrown recompute only `cotError` is
written — `cotData` keeps its previous value. -/
def handleCOTPeriodChange (appDataDir assetId : String) (period : Nat)
    (calcRes : Outcome COTData) (s : COTState) : COTState × List Cmd :=
  let s0 := { s with cotPeriod := period }
  match s0.cotData with
  | none => (s0, [])
  | some _ =>
      let s1 := { s0 with cotLoading := true }
      let fp := cotFilePathFor appDataDir assetId
      match calcRes with
      | .thrown msg =>
          ({ s1 with cotError := some ("Error: " ++ msg), cotLoading := false },
           [.calcCotMetrics fp period])
      | .ok cr =>
          if cr.success then
            ({ s1 with cotData := some cr, cotLoading := false },
             [.calcCotMetrics fp period])
          else
            ({ s1 with cotError := some (orString cr.message
                          "Failed to calculate COT metrics"),
                       cotLoading := false },
             [.calcCotMetrics fp period])

/-- The `years` arguments offered by the three period buttons of
`COTChart.tsx` (`onPeriodChange(1)`, `onPeriodChange(2)`,
`onPeriodChange(3)`). -/
def buttonPeriods : List Nat := [1, 2, 3]

/-- A user-driven event of the COT panel: pressing "Load COT Data", or one
of the three period buttons (identified by its index). -/
inductive COTEvent where
  | fetch (fetchRes calcRes : Outcome COTData)
  | periodChange (i : Fin 3) (calcRes : Outcome COTData)

/-- Dispatch one COT event to its handler. -/
def cotStep (appDataDir assetId symbol : String) (s : COTState)
    (e : COTEvent) : COTState × List Cmd :=
  match e with
  | .fetch fr cr => handleFetchCOT appDataDir assetId symbol fr cr s
  | .periodChange i cr =>
      handleCOTPeriodChange appDataDir assetId (buttonPeriods.get i) cr s

/-- Run a sequence of COT events from a state, accumulating the issued
commands. -/
def cotRun (appDataDir assetId symbol : String) (s : COTState) :
    List COTEvent → COTState × List Cmd
  | [] => (s, [])
  | e :: es =>
      let p1 := cotStep appDataDir assetId symbol s e
      let p2 := cotRun appDataDir assetId symbol p1.1 es
      (p2.1, p1.2 ++ p2.2)

/-- The `cotPeriod` state is one of the three offered window sizes. -/
def periodOk (s : COTState) : Bool :=
  s.cotPeriod == 1 || s.cotPeriod == 2 || s.cotPeriod == 3

/-- The `years` argument of a command, when it has one, is in {1, 2, 3}. -/
def cmdYearsOk (c : Cmd) : Bool :=
  match c with
  | .calcCotMetrics _ y => y == 1 || y == 2 || y == 3
  | _ => true

/-- JavaScript `Number.prototype.toFixed(2)` on an exact value: round to
the nearest hundredth, choosing the larger candidate on a tie. -/
def toFixed2 (v : ℚ) : ℚ :=
  (Int.floor (v * 100 + 1 / 2) : ℚ) / 100

/-- The tooltip formatter shared by `SeasonalityChart.tsx` and
`HistoricalChart.tsx`:
`value !== null ? value.toFixed(2) + "%" : "N/A"`.
Returns the number shown before the percent sign, `none` for the `N/A`
branch.  No arithmetic other than the two-decimal rounding is applied. -/
def tooltipDisplayedNumber (v : Option ℚ) : Option ℚ :=
  match v with
  | none => none
  | some x => some (toFixed2 x)

/-- Modelled from the spec: "Value at day-of-year i ... expressed as a
decimal fraction (the UI layer scales to percent)" — the number the spec
says the UI displays for a payload value `v`, namely `100 * v`. -/
def specDisplayedNumber (v : ℚ) : ℚ := 100 * v

/-- JavaScript `parseInt(s)` as used by the year inputs of `Sidebar.tsx`
and `App.tsx`: an optional sign followed by a leading digit run; any
string with no leading digits (after the sign) yields `NaN`, modelled as
`none`. -/
def parseIntJS (s : String) : Option Int :=
  let digitsToNat? : List Char → Option Nat := fun cs =>
    let ds := cs.takeWhile Char.isDigit
    if ds = [] then none
    else some (ds.foldl (fun a c => a * 10 + (c.toNat - 48)) 0)
  match s.data with
  | '-' :: rest => (digitsToNat? rest).map (fun n => -(n : Int))
  | '+' :: rest => (digitsToNat? rest).map (fun n => (n : Int))
  | cs => (digitsToNat? cs).map (fun n => (n : Int))

/-- The year bounds declared on the year `input` element
(`min="2000"`, `max={currentYear}`); HTML attributes only, enforced
nowhere in the submission path. -/
def yearInputMin : Int := 2000

/-- A successful `calculate_seasonality` payload whose target-year curve
starts with the normalization anchor `0` (day-of-year 1), followed by a
nonzero value and a missing trading day. -/
def anchorPayload : SeasonalityData :=
  { success := true
    actual := some [some 0, some (3 / 2), none] }

/-- C1: evaluation of the chart-data transform of `handleCalculate` at the
normalization-anchor payload.  The `|| null` coalescing maps the numeric
value `0` stored at index 0 (day-of-year 1) to `null`, contradicting the
claim that every numeric payload value appears as the chart value and that
only missing trading days map to `null`; a nonzero value and a `null`
entry behave as the claim states. -/
theorem transform_drops_zero_anchor :
    (transformPoint anchorPayload 0).actualVal = none ∧
    (transformPoint anchorPayload 1).actualVal = some (3 / 2) ∧
    (transformPoint anchorPayload 2).actualVal = none := by
  refine ⟨rfl, ?_, rfl⟩
  simp [transformPoint, anchorPayload, optIndex, orNull]

/-- C6: for every successful payload, whatever the lengths of its arrays,
the transform produces exactly 365 chart points whose `day` fields are
1 through 365 in order. -/
theorem transform_day_axis (result : SeasonalityData) :
    (transformChartData result).length = 365 ∧
    (transformChartData result).map ChartDataPoint.day
      = (List.range 365).map (fun i => i + 1) := by
  constructor
  · simp [transformChartData]
  · simp only [transformChartData, List.map_map]
    rfl

/-- C7: each transformed chart point carries one value per window average
(2/5/6/10 years) plus the series of the target year itself, each taken from the
corresponding payload array; the five series keys are the four average
keys plus the year key, and `HistoricalChart` with the default (all-true)
toggles renders exactly the four window averages. -/
theorem five_series_per_result (result : SeasonalityData) (day : Nat)
    (y : Option Int) :
    (transformPoint result day).avg10 = orNull (optIndex result.avg_10yr day) ∧
    (transformPoint result day).avg6 = orNull (optIndex result.avg_6yr day) ∧
    (transformPoint result day).avg5 = orNull (optIndex result.avg_5yr day) ∧
    (transformPoint result day).avg2 = orNull (optIndex result.avg_2yr day) ∧
    (transformPoint result day).actualVal = orNull (optIndex result.actual day) ∧
    chartSeriesKeys y
      = historicalChartLines initShowFlags.1 initShowFlags.2.1
          initShowFlags.2.2.1 initShowFlags.2.2.2 ++ [yearKey y] ∧
    historicalChartLines true true true true
      = ["10-Year Avg", "6-Year Avg", "5-Year Avg", "2-Year Avg"] :=
  ⟨rfl, rfl, rfl, rfl, rfl, rfl, rfl⟩

/-- C10: for every loop index `0 ≤ day < 365`, the month index
`Math.min(Math.floor(day / 30.4), 11)` is within the 12-element `months`
array, so the label lookup never yields `undefined`. -/
theorem month_lookup_in_bounds (day : Nat) (h : day < 365) :
    min (monthIndex day) 11 < months.length ∧
    (monthLabel day).isSome = true := by
  have hle : min (monthIndex day) 11 ≤ 11 := min_le_right _ _
  have h12 : (11 : ℕ) < months.length := by decide
  have hlt : min (monthIndex day) 11 < months.length := lt_of_le_of_lt hle h12
  refine ⟨hlt, ?_⟩
  simp only [monthLabel]
  rw [List.get?_eq_getElem?, List.getElem?_eq_getElem hlt]
  rfl

/-- C10 witness: instance at `day = 3`. -/
theorem month_lookup_in_bounds_witness :
    3 < 365 ∧
    (min (monthIndex 3) 11 < months.length ∧ (monthLabel 3).isSome = true) :=
  ⟨by decide, month_lookup_in_bounds 3 (by decide)⟩

/-- C3: in `handleFetchCOT` the first command issued is always the
`fetch_cot_data` ingestion, and a `calculate_cot_metrics` compute command
is issued exactly when the ingestion call resolved with `success = true`;
a failed or thrown ingestion issues no compute command. -/
theorem cot_compute_gated_on_ingest (appDataDir assetId symbol : String)
    (fetchRes calcRes : Outcome COTData) (s : COTState) :
    (handleFetchCOT appDataDir assetId symbol fetchRes calcRes s).2.head?
      = some (Cmd.fetchCotData symbol (cotFilePathFor appDataDir assetId)) ∧
    ((∃ y, Cmd.calcCotMetrics (cotFilePathFor appDataDir assetId) y
          ∈ (handleFetchCOT appDataDir assetId symbol fetchRes calcRes s).2)
      ↔ ∃ r, fetchRes = Outcome.ok r ∧ r.success = true) := by
  cases fetchRes with
  | thrown m => simp [handleFetchCOT]
  | ok fr =>
    cases hfs : fr.success with
    | false =>
        simp only [handleFetchCOT, hfs, Bool.false_eq_true, if_false]
        simp [hfs]
    | true =>
        cases calcRes with
        | thrown m =>
            simp only [handleFetchCOT, hfs, if_true]
            simp [hfs]
        | ok cr =>
            cases hcs : cr.success with
            | false =>
                simp only [handleFetchCOT, hfs, hcs, if_true,
                  Bool.false_eq_true, if_false]
                simp [hfs]
            | true =>
                simp only [handleFetchCOT, hfs, hcs, if_true]
                simp [hfs]

/-- C4: whenever `handleCalculate` runs with an initialized app directory,
it terminates with `loading` cleared in every outcome; on a
`success=false` result or a throw it sets `error` to the result message
(or the default / stringified error) and leaves `chartData` untouched;
`chartData` is replaced by the transformed payload exactly on a
`success=true` result. -/
theorem handleCalculate_atomic (appDataDir assetId : String)
    (y : Option Int) (res : Outcome SeasonalityData) (s : SeasonState)
    (h : appDataDir ≠ "") :
    (handleCalculate appDataDir assetId y res s).1.loading = false ∧
    (∀ r, res = Outcome.ok r → r.success = true →
        (handleCalculate appDataDir assetId y res s).1.chartData
          = transformChartData r ∧
        (handleCalculate appDataDir assetId y res s).1.error = none) ∧
    (∀ r, res = Outcome.ok r → r.success = false →
        (handleCalculate appDataDir assetId y res s).1.error
          = some (orString r.message "Failed to calculate seasonality") ∧
        (handleCalculate appDataDir assetId y res s).1.chartData
          = s.chartData) ∧
    (∀ m, res = Outcome.thrown m →
        (handleCalculate appDataDir assetId y res s).1.error
          = some ("Error: " ++ m) ∧
        (handleCalculate appDataDir assetId y res s).1.chartData
          = s.chartData) := by
  refine ⟨?_, ?_, ?_, ?_⟩
  · cases res with
    | thrown m => simp [handleCalculate, h]
    | ok r => cases hr : r.success <;> simp [handleCalculate, h, hr]
  · rintro r rfl hr
    simp [handleCalculate, h, hr]
  · rintro r rfl hr
    simp [handleCalculate, h, hr]
  · rintro m rfl
    simp [handleCalculate, h]

/-- C4 witness: a thrown `calculate_seasonality` call from the initial
state with directory "d" clears `loading`, reports the error, and keeps
`chartData`. -/
theorem handleCalculate_atomic_witness :
    ("d" : String) ≠ "" ∧
    (handleCalculate "d" "gold" (some 2024) (Outcome.thrown "boom")
        initSeasonState).1.loading = false :=
  ⟨by decide,
   (handleCalculate_atomic "d" "gold" (some 2024) (Outcome.thrown "boom")
       initSeasonState (by decide)).1⟩

/-- C8 counterexample: the year string "abc" does not parse as an integer
(`parseInt` gives `NaN`), yet `handleCalculate` still issues the
`calculate_seasonality` command with that unparsed year — no synchronous
input error prevents the call, refuting the claim that the operation is
not attempted. -/
theorem invalid_year_still_invoked :
    parseIntJS "abc" = none ∧
    (handleCalculate "d" "gold" (parseIntJS "abc")
        (Outcome.ok { success := false }) initSeasonState).2
      = [Cmd.calcSeasonality "d/data/gold_daily.csv" none] := by
  constructor
  · rfl
  · rfl

/-- C8 amended: the UI performs no year validation at all — for every
year value (including the `NaN` produced by an unparseable year string and
years outside the min/max bounds of the input element), `handleCalculate` with an
initialized app directory issues exactly one `calculate_seasonality`
command carrying that raw year. -/
theorem handleCalculate_always_invokes (appDataDir assetId : String)
    (y : Option Int) (res : Outcome SeasonalityData) (s : SeasonState)
    (h : appDataDir ≠ "") :
    (handleCalculate appDataDir assetId y res s).2
      = [Cmd.calcSeasonality (filePathFor appDataDir assetId) y] := by
  cases res with
  | thrown m => simp [handleCalculate, h]
  | ok r => cases hr : r.success <;> simp [handleCalculate, h, hr]

/-- C8 amended witness: instance with the `NaN` year. -/
theorem handleCalculate_always_invokes_witness :
    ("d" : String) ≠ "" ∧
    (handleCalculate "d" "gold" none (Outcome.ok { success := false })
        initSeasonState).2
      = [Cmd.calcSeasonality (filePathFor "d" "gold") none] :=
  ⟨by decide,
   handleCalculate_always_invokes "d" "gold" none
     (Outcome.ok { success := false }) initSeasonState (by decide)⟩

/-- C2 counterexample: the tooltip formatter of the chart components
displays the payload value itself (rounded to two decimals) with a percent
sign — it never multiplies by 100.  For the payload value 1/2 the
displayed number is 1/2, not the 50 the claim requires. -/
theorem tooltip_not_scaled_counterexample :
    tooltipDisplayedNumber (some (1 / 2)) = some (1 / 2) ∧
    specDisplayedNumber (1 / 2) = 50 ∧
    tooltipDisplayedNumber (some (1 / 2))
      ≠ some (specDisplayedNumber (1 / 2)) := by
  refine ⟨?_, by norm_num [specDisplayedNumber], ?_⟩
  · simp only [tooltipDisplayedNumber, toFixed2]
    norm_num
  · simp only [tooltipDisplayedNumber, toFixed2, specDisplayedNumber]
    norm_num

/-- C2 amended: the UI layer applies no scaling — for every payload value
`v` the number displayed next to the percent label is `v` itself rounded
to two decimals (`toFixed(2)`), so whenever `v` is exactly representable
at two decimals the displayed number equals `v`, never `100 * v`. -/
theorem tooltip_displays_unscaled (v : ℚ) (h : (v * 100).den = 1) :
    tooltipDisplayedNumber (some v) = some v ∧
    ∀ w : ℚ, tooltipDisplayedNumber (some w) = some (toFixed2 w) := by
  constructor
  · have hn : ((v * 100).num : ℚ) = v * 100 := by
      have h2 := Rat.num_div_den (v * 100)
      rw [h] at h2
      simpa using h2
    simp only [tooltipDisplayedNumber, toFixed2, Option.some.injEq]
    rw [← hn, Int.floor_int_add]
    have h12 : ⌊(1 : ℚ) / 2⌋ = 0 := by norm_num
    rw [h12]
    push_cast
    rw [hn]
    field_simp
  · intro w
    rfl

/-- C2 amended witness: instance at `v = 1/4`. -/
theorem tooltip_displays_unscaled_witness :
    ((1 / 4 : ℚ) * 100).den = 1 ∧
    tooltipDisplayedNumber (some (1 / 4 : ℚ)) = some (1 / 4 : ℚ) :=
  ⟨by norm_num, (tooltip_displays_unscaled (1 / 4) (by norm_num)).1⟩

/-- An example COT payload held on screen before a period change. -/
def exHeldCOT : COTData := { success := true }

/-- An example `useCOT` state with COT data loaded. -/
def exCOTState : COTState :=
  { cotData := some exHeldCOT
    cotLoading := false
    cotPeriod := 1
    cotError := none }

/-- C9: when the compute step fails (failed result or throw), the two COT
paths diverge — `handleFetchCOT` resets `cotData` to `null` (clearing the
chart) while `handleCOTPeriodChange` only sets `cotError` and keeps the
previously displayed `cotData`. -/
theorem cot_failure_screen_effects (appDataDir assetId symbol : String)
    (p : Nat) (m : String) (fr cr : COTData) (s : COTState) (d : COTData)
    (hfr : fr.success = true) (hcr : cr.success = false)
    (hd : s.cotData = some d) :
    (handleFetchCOT appDataDir assetId symbol (Outcome.ok fr)
        (Outcome.ok cr) s).1.cotData = none ∧
    (handleFetchCOT appDataDir assetId symbol (Outcome.ok fr)
        (Outcome.ok cr) s).1.cotError
      = some (orString cr.message "Failed to calculate COT metrics") ∧
    (handleFetchCOT appDataDir assetId symbol (Outcome.ok fr)
        (Outcome.thrown m) s).1.cotData = none ∧
    (handleCOTPeriodChange appDataDir assetId p (Outcome.ok cr) s).1.cotData
      = some d ∧
    (handleCOTPeriodChange appDataDir assetId p (Outcome.ok cr) s).1.cotError
      = some (orString cr.message "Failed to calculate COT metrics") ∧
    (handleCOTPeriodChange appDataDir assetId p (Outcome.thrown m) s).1.cotData
      = some d := by
  refine ⟨?_, ?_, ?_, ?_, ?_, ?_⟩ <;>
    simp [handleFetchCOT, handleCOTPeriodChange, hfr, hcr, hd]

/-- C9 witness: instance with a loaded chart and a failed recompute. -/
theorem cot_failure_screen_effects_witness :
    (({ success := true } : COTData).success = true ∧
     (({ success := false } : COTData)).success = false ∧
     exCOTState.cotData = some exHeldCOT) ∧
    (handleCOTPeriodChange "d" "gold" 2
        (Outcome.ok { success := false }) exCOTState).1.cotData
      = some exHeldCOT :=
  ⟨⟨rfl, rfl, rfl⟩,
   (cot_failure_screen_effects "d" "gold" "GC=F" 2 "x"
       { success := true } { success := false } exCOTState exHeldCOT
       rfl rfl rfl).2.2.2.1⟩

/-- Every period button of `COTChart.tsx` offers a window size in
{1, 2, 3}. -/
theorem buttonPeriods_ok (i : Fin 3) :
    (buttonPeriods.get i == 1 || buttonPeriods.get i == 2
      || buttonPeriods.get i == 3) = true := by
  fin_cases i <;> decide

/-- One COT event preserves the period invariant and only issues compute
commands whose `years` argument is in {1, 2, 3}. -/
theorem cotStep_preserves (appDataDir assetId symbol : String)
    (s : COTState) (e : COTEvent) (hp : periodOk s = true) :
    periodOk (cotStep appDataDir assetId symbol s e).1 = true ∧
    (cotStep appDataDir assetId symbol s e).2.all cmdYearsOk = true := by
  cases e with
  | fetch fr cr =>
    cases fr with
    | thrown m => simpa [cotStep, handleFetchCOT, periodOk, cmdYearsOk] using hp
    | ok frv =>
      cases hfs : frv.success with
      | false =>
        simpa [cotStep, handleFetchCOT, hfs, periodOk, cmdYearsOk] using hp
      | true =>
        cases cr with
        | thrown m =>
          constructor <;>
            simpa [cotStep, handleFetchCOT, hfs, periodOk, cmdYearsOk] using hp
        | ok crv =>
          cases hcs : crv.success with
          | false =>
            constructor <;>
              simpa [cotStep, handleFetchCOT, hfs, hcs, periodOk, cmdYearsOk]
                using hp
          | true =>
            constructor <;>
              simpa [cotStep, handleFetchCOT, hfs, hcs, periodOk, cmdYearsOk]
                using hp
  | periodChange i cr =>
    have hb := buttonPeriods_ok i
    cases hsd : s.cotData with
    | none =>
      refine ⟨?_, by simp [cotStep, handleCOTPeriodChange, hsd]⟩
      simpa [cotStep, handleCOTPeriodChange, hsd, periodOk] using hb
    | some d =>
      cases cr with
      | thrown m =>
        constructor <;>
          simpa [cotStep, handleCOTPeriodChange, hsd, periodOk, cmdYearsOk]
            using hb
      | ok crv =>
        cases hcs : crv.success with
        | false =>
          constructor <;>
            simpa [cotStep, handleCOTPeriodChange, hsd, hcs, periodOk,
              cmdYearsOk] using hb
        | true =>
          constructor <;>
            simpa [cotStep, handleCOTPeriodChange, hsd, hcs, periodOk,
              cmdYearsOk] using hb

/-- Running any event sequence preserves the period invariant and the
command discipline. -/
theorem cotRun_preserves (appDataDir assetId symbol : String) :
    ∀ (es : List COTEvent) (s : COTState), periodOk s = true →
      periodOk (cotRun appDataDir assetId symbol s es).1 = true ∧
      (cotRun appDataDir assetId symbol s es).2.all cmdYearsOk = true
  | [], s, hp => ⟨hp, rfl⟩
  | e :: es, s, hp => by
      have h1 := cotStep_preserves appDataDir assetId symbol s e hp
      have h2 := cotRun_preserves appDataDir assetId symbol es
        (cotStep appDataDir assetId symbol s e).1 h1.1
      refine ⟨?_, ?_⟩
      · simpa [cotRun] using h2.1
      · simp [cotRun, List.all_append, h1.2, h2.2]

/-- C5: starting from the initial `useCOT` state (`cotPeriod = 1`), along
every sequence of user events (COT fetches and period-button presses,
which offer only 1, 2 or 3), the `cotPeriod` state stays in {1, 2, 3} and
every `calculate_cot_metrics` command issued by either call site carries a
`years` argument in {1, 2, 3}. -/
theorem cot_years_always_valid (appDataDir assetId symbol : String)
    (es : List COTEvent) :
    periodOk (cotRun appDataDir assetId symbol initCOTState es).1 = true ∧
    (cotRun appDataDir assetId symbol initCOTState es).2.all cmdYearsOk
      = true :=
  cotRun_preserves appDataDir assetId symbol es initCOTState rfl

end FourSeasons


